import Mathlib

/-!
Verification of pouw-afstand-checker (src/afstand_tool.py) against its
natural-language specification.

The tool is a single-pipeline Streamlit page: geocode a query (or take raw
coordinates), route to three fixed destinations with a haversine fallback,
filter out failed legs, sort by travel time and render.

Shallow embedding conventions:
  - Outbound HTTP is modelled by an oracle `att : Nat -> AttemptOutcome ρ`
    giving, for each 0-based attempt index, either a raised
    requests.exceptions.RequestException (`raises`) or a returned response
    object (`returns r`).  `safe_get` consumes this oracle.
  - Python floats are modelled as rationals in the orchestration logic
    (where everything is arithmetic on service numbers) and as reals in the
    trigonometric haversine formula.  The float literal 1.1 is modelled as
    the exact rational 11 / 10.
  - time.sleep is modelled by recording the slept duration in a trace.
  - Streamlit calls (st.*) are presentation plumbing; the st.error + st.stop
    exit on the all-failed path is modelled as a distinguished outcome
    constructor.  The st.cache_data decorators only memoize pure functions
    and do not change the computed values.
-/

namespace Afstand

/-- Outcome of one requests.get call inside safe_get: either the call raises
a RequestException (connection/timeout error) or it returns a response
object (of any HTTP status). -/
inductive AttemptOutcome (ρ : Type) where
  | raises
  | returns (r : ρ)
deriving DecidableEq

/-- Observable trace of one safe_get call: the returned value (None modelled
as `none`), how many requests.get attempts were performed, and the list of
time.sleep durations in the order they happened. -/
structure FetchTrace (ρ : Type) where
  result : Option ρ
  attempts : Nat
  sleeps : List ℚ
deriving DecidableEq

/-- Embedding of the loop body of safe_get (src/afstand_tool.py lines 39-47):
`for i in range(retries): try: return requests.get(...) except ...:
time.sleep(backoff * (i + 1))`, starting at loop index `i` with `n`
iterations left.  On a returned response the loop exits immediately with
that response, whatever its status code; on a raised exception it sleeps
`backoff * (i + 1)` seconds and continues; when the range is exhausted it
falls through to `return None`. -/
def safe_getFrom {ρ : Type} (att : Nat → AttemptOutcome ρ) (backoff : ℚ) :
    Nat → Nat → FetchTrace ρ
  | _, 0 => ⟨none, 0, []⟩
  | i, n + 1 =>
    match att i with
    | .returns r => ⟨some r, 1, []⟩
    | .raises =>
      let rest := safe_getFrom att backoff (i + 1) n
      ⟨rest.result, rest.attempts + 1, backoff * ((i : ℚ) + 1) :: rest.sleeps⟩

/-- Embedding of safe_get (src/afstand_tool.py lines 34-47): run the retry
loop from index 0 with `retries` iterations.  The url/params/headers/timeout
arguments only shape what the oracle answers and are absorbed into it. -/
def safe_get {ρ : Type} (att : Nat → AttemptOutcome ρ) (retries : Nat)
    (backoff : ℚ) : FetchTrace ρ :=
  safe_getFrom att backoff 0 retries

/-- Number of performed attempts that raised an exception, starting at index
`i` with `n` loop iterations left: the loop performs attempts until the
first returned response (or until the range is exhausted), and exactly the
raising ones are followed by a sleep. -/
def raisedCount {ρ : Type} (att : Nat → AttemptOutcome ρ) : Nat → Nat → Nat
  | _, 0 => 0
  | i, n + 1 =>
    match att i with
    | .returns _ => 0
    | .raises => raisedCount att (i + 1) n + 1

/-- Minimal response object for the geocoding client: HTTP status code plus
the JSON body consumed by geocode_city (a list of candidate (lat, lon)
pairs; float parsing of the decimal strings sent by the service is modelled
as the parsed rational values). -/
structure GeoResponse where
  status_code : Nat
  data : List (ℚ × ℚ)
deriving DecidableEq

/-- Minimal response object for the routing client: HTTP status code, the
service's own "code" field, and the candidate routes as (distance-in-meters,
duration-in-seconds) pairs. -/
structure RouteResponse where
  status_code : Nat
  code : String
  routes : List (ℚ × ℚ)
deriving DecidableEq

/-- Oracle where every requests.get attempt returns an HTTP 500 response. -/
def att500 : Nat → AttemptOutcome GeoResponse := fun _ => .returns ⟨500, []⟩

/-- Oracle where every requests.get attempt raises a connection error. -/
def attRaise : Nat → AttemptOutcome GeoResponse := fun _ => .raises

/-- Oracle whose attempt 0 raises and whose attempt 1 returns an HTTP 503
response. -/
def attSecond : Nat → AttemptOutcome GeoResponse :=
  fun n => if n = 1 then .returns ⟨503, []⟩ else .raises

/-- Oracle where every attempt succeeds with HTTP 200 and an empty result
array (the geocoding service found no match). -/
def attEmpty : Nat → AttemptOutcome GeoResponse := fun _ => .returns ⟨200, []⟩

/-- Embedding of geocode_city (src/afstand_tool.py lines 50-71): call
safe_get with retries = 3, backoff = 1.2 (= 6/5); return None when the
transport fails, when the HTTP status is not 200, or when the JSON array is
empty; otherwise return the (lat, lon) of the first candidate.  The fixed
query params (format=json, limit=1, countrycodes=nl) and User-Agent header
shape the oracle's answers and are absorbed into it. -/
def geocode_city (att : Nat → AttemptOutcome GeoResponse) : Option (ℚ × ℚ) :=
  match (safe_get att 3 (6 / 5)).result with
  | none => none
  | some r =>
    if r.status_code ≠ 200 then none
    else
      match r.data with
      | [] => none
      | c :: _ => some c

/-- Embedding of route_osrm_km_minutes (src/afstand_tool.py lines 74-94):
call safe_get with retries = 3, backoff = 1.0; return None when the
transport fails, the HTTP status is not 200, the service code is not "Ok",
or the routes array is empty; otherwise convert the first route to
(km, minutes) by distance / 1000 and duration / 60. -/
def route_osrm_km_minutes (att : Nat → AttemptOutcome RouteResponse) :
    Option (ℚ × ℚ) :=
  match (safe_get att 3 1).result with
  | none => none
  | some r =>
    if r.status_code ≠ 200 then none
    else if r.code ≠ "Ok" then none
    else
      match r.routes with
      | [] => none
      | rt :: _ => some (rt.1 / 1000, rt.2 / 60)

/-- One entry of the results list built by the main script (lines 154-171):
the tuple (name, km, minutes, kind) with kind one of "route", "fallback",
"failed", and km/minutes None exactly on the failed path. -/
structure Leg (α : Type) where
  name : String
  km : Option α
  minutes : Option α
  kind : String
deriving DecidableEq

/-- Embedding of the per-destination results loop (src/afstand_tool.py lines
157-171), generic over the number type and with the routing client and the
haversine helper passed as functions: for each (name, (lat, lon)) location,
try routing from the candidate origin; on None either fall back to the
haversine estimate with minutes = km * 1.1 (modelled exactly as 11 / 10) or
record a failed leg with both values absent. -/
def resultsLoop {α : Type} [LinearOrderedField α]
    (routed : α × α → α × α → Option (α × α)) (hav : α × α → α × α → α)
    (fallback_to_haversine : Bool) (origin : α × α)
    (locations : List (String × α × α)) : List (Leg α) :=
  locations.map (fun loc =>
    match routed origin loc.2 with
    | none =>
      if fallback_to_haversine then
        let km := hav origin loc.2
        ⟨loc.1, some km, some (km * (11 / 10)), "fallback"⟩
      else
        ⟨loc.1, none, none, "failed"⟩
    | some kmMin => ⟨loc.1, some kmMin.1, some kmMin.2, "route"⟩)

/-- Embedding of `ok_results = [r for r in results if r[1] is not None]`
(line 173): keep the entries whose km is present. -/
def ok_results {α : Type} (results : List (Leg α)) : List (Leg α) :=
  results.filter (fun r => r.km.isSome)

/-- Sort key of `ok_results.sort(key=lambda x: x[2])` (line 179): the
minutes entry.  On the lists the script sorts, minutes is always present
(every filtered entry has km present, and km and minutes are present
together); the default value 0 is never consulted. -/
def minutesKey {α : Type} [LinearOrderedField α] (r : Leg α) : α :=
  r.minutes.getD 0

/-- Embedding of `ok_results.sort(key=lambda x: x[2])` (line 179): Python
list.sort is an ascending stable sort, modelled by List.mergeSort (also
stable). -/
def sortLegs {α : Type} [LinearOrderedField α] (legs : List (Leg α)) :
    List (Leg α) :=
  legs.mergeSort (fun a b => decide (minutesKey a ≤ minutesKey b))

/-- Outcome of the post-loop orchestration: either the st.error + st.stop
exit when no leg has a distance ("Geen routes konden worden berekend"), or
the sorted ranking that the rendering code consumes. -/
inductive ComputeOutcome (α : Type) where
  | allRoutesUnavailable
  | ranking (legs : List (Leg α))
deriving DecidableEq

/-- Embedding of the orchestration around the loop (lines 153-181): build
the results, filter the entries that have a distance, surface the
all-routes-unavailable stop when none remain, else sort ascending by
minutes. -/
def compute {α : Type} [LinearOrderedField α]
    (routed : α × α → α × α → Option (α × α)) (hav : α × α → α × α → α)
    (fallback_to_haversine : Bool) (origin : α × α)
    (locations : List (String × α × α)) : ComputeOutcome α :=
  let results := resultsLoop routed hav fallback_to_haversine origin locations
  let ok := ok_results results
  if ok.isEmpty then .allRoutesUnavailable
  else .ranking (sortLegs ok)

/-- The three fixed destinations LOCATIONS_LL (lines 9-13), in insertion
order of the Python dict (which iteration preserves), coordinates as exact
decimal values. -/
def LOCATIONS_LL : List (String × ℚ × ℚ) :=
  [("Vianen – Hagenweg 3c", (51.9919, 5.0912)),
   ("Amersfoort – De Stuwdam 5", (52.1561, 5.3878)),
   ("Woerden – Botnische Golf 24", (52.0867, 4.8833))]

/-- Mock routing client whose calls all fail. -/
def rtNone : ℚ × ℚ → ℚ × ℚ → Option (ℚ × ℚ) := fun _ _ => none

/-- Mock distance helper returning 10 km for every pair. -/
def hav10 : ℚ × ℚ → ℚ × ℚ → ℚ := fun _ _ => 10

/-- Mock routing client for the worked example of the spec: the Amersfoort
destination routes successfully with (20 km, 18 min); the other calls
fail. -/
def rtExample : ℚ × ℚ → ℚ × ℚ → Option (ℚ × ℚ) :=
  fun _ d => if d = (52.1561, 5.3878) then some (20, 18) else none

/-- Mock distance helper for the worked example of the spec: haversine 10 km
to the Vianen destination and 50 km to the others (only Woerden falls back
to it alongside Vianen). -/
def havExample : ℚ × ℚ → ℚ × ℚ → ℚ :=
  fun _ d => if d = (51.9919, 5.0912) then 10 else 50

/-- Embedding of math.radians: degrees to radians, x * pi / 180. -/
noncomputable def radians (x : ℝ) : ℝ := x * (Real.pi / 180)

/-- Embedding of haversine_km (src/afstand_tool.py lines 19-26) over the
reals: Earth radius 6371.0 km, haversine formula with math.sin, math.cos,
math.asin, math.sqrt. -/
noncomputable def haversine_km (lat1 lon1 lat2 lon2 : ℝ) : ℝ :=
  let R : ℝ := 6371.0
  let p1 := radians lat1
  let p2 := radians lat2
  let dlat := radians (lat2 - lat1)
  let dlon := radians (lon2 - lon1)
  let h := Real.sin (dlat / 2) ^ 2 +
    Real.cos p1 * Real.cos p2 * Real.sin (dlon / 2) ^ 2
  2 * R * Real.arcsin (Real.sqrt h)

/-- Pair-argument wrapper of haversine_km, as used by the results loop
(`haversine_km(clat, clon, lat, lon)`). -/
noncomputable def havPair (a b : ℝ × ℝ) : ℝ := haversine_km a.1 a.2 b.1 b.2

/-- Mock real-valued routing client whose calls all fail. -/
def rtNoneR : ℝ × ℝ → ℝ × ℝ → Option (ℝ × ℝ) := fun _ _ => none

/-- The fallback leg produced for the Vianen destination when routing fails
and the mocked haversine distance is 10 km. -/
def legV10 : Leg ℚ := ⟨"Vianen – Hagenweg 3c", some 10, some 11, "fallback"⟩

/-- Value space of Python float parsing: a finite value (exact rational), or
one of the non-finite floats nan, inf, -inf. -/
inductive PyVal where
  | finite (q : ℚ)
  | nan
  | inf
  | ninf
deriving DecidableEq

/-- Value of a digit string, most significant first. -/
def digitsToNat (ds : List Char) : Nat :=
  ds.foldl (fun acc c => acc * 10 + (c.toNat - 48)) 0

/-- Model of CPython float() on an already stripped string: optional sign,
then either one of the keywords inf / infinity / nan (case-insensitive) or a
decimal literal `digits [. digits] [e|E [sign] digits]` where at least one
mantissa digit is present (so "5.", ".5", "1e3" are accepted and "", ".",
"1e" are rejected).  Underscore digit separators are not modelled. -/
def pyFloatCore (cs : List Char) : Option PyVal :=
  let sgnSplit : ℤ × List Char :=
    match cs with
    | '+' :: t => (1, t)
    | '-' :: t => (-1, t)
    | _ => (1, cs)
  let sgn := sgnSplit.1
  let body := sgnSplit.2
  let lower := body.map Char.toLower
  if lower = ['n', 'a', 'n'] then some .nan
  else if lower = ['i', 'n', 'f'] ∨
      lower = ['i', 'n', 'f', 'i', 'n', 'i', 't', 'y'] then
    some (if sgn = 1 then .inf else .ninf)
  else
    let intSplit := body.span Char.isDigit
    let intDs := intSplit.1
    let fracSplit : List Char × List Char :=
      match intSplit.2 with
      | '.' :: t => t.span Char.isDigit
      | _ => ([], intSplit.2)
    let fracDs := fracSplit.1
    let rest := fracSplit.2
    if intDs.isEmpty && fracDs.isEmpty then none
    else
      let mant : ℚ := (sgn : ℚ) *
        ((digitsToNat intDs : ℚ) + (digitsToNat fracDs : ℚ) / (10 : ℚ) ^ fracDs.length)
      match rest with
      | [] => some (.finite mant)
      | e :: t =>
        if e = 'e' ∨ e = 'E' then
          let esplit : ℤ × List Char :=
            match t with
            | '+' :: u => (1, u)
            | '-' :: u => (-1, u)
            | _ => (1, t)
          let expSplit := esplit.2.span Char.isDigit
          if expSplit.1.isEmpty || !expSplit.2.isEmpty then none
          else some (.finite (mant * (10 : ℚ) ^ (esplit.1 * (digitsToNat expSplit.1 : ℤ))))
        else none

/-- Model of str.strip(): drop leading and trailing whitespace. -/
def pyStrip (cs : List Char) : List Char :=
  ((cs.dropWhile Char.isWhitespace).reverse.dropWhile Char.isWhitespace).reverse

/-- Model of str.replace(",", "."): the pattern is a single character, so
the replacement is a character map. -/
def pyReplaceComma (cs : List Char) : List Char :=
  cs.map (fun c => if c = ',' then '.' else c)

/-- Embedding of one coordinate field of the coordinate input branch (lines
142-144): `float(lat_str.strip().replace(",", "."))`, with the raised
ValueError of an unparsable string modelled as `none`. -/
def parse_coord (s : String) : Option PyVal :=
  pyFloatCore (pyReplaceComma (pyStrip s.toList))

/-- Embedding of the whole coordinate input branch (lines 141-148): both
fields must parse as Python floats; any parse failure takes the
except-branch (validation error, st.stop), otherwise cand_ll is exactly the
parsed pair, with no range or finiteness check. -/
def coord_input (lat_str lon_str : String) : Option (PyVal × PyVal) :=
  match parse_coord lat_str, parse_coord lon_str with
  | some a, some b => some (a, b)
  | _, _ => none

theorem safe_getFrom_result_none_iff {ρ : Type} (att : Nat → AttemptOutcome ρ)
    (b : ℚ) : ∀ n i, (safe_getFrom att b i n).result = none ↔
      ∀ k, k < n → att (i + k) = .raises := by
  intro n
  induction n with
  | zero => intro i; simp [safe_getFrom]
  | succ m ih =>
    intro i
    rcases h : att i with _ | r
    · rw [safe_getFrom]
      rw [h]
      simp only
      rw [ih (i + 1)]
      constructor
      · intro hall k hk
        rcases k with _ | k
        · simpa using h
        · have := hall k (by omega)
          simpa [Nat.add_assoc, Nat.add_comm 1 k] using this
      · intro hall k hk
        have := hall (k + 1) (by omega)
        simpa [Nat.add_assoc, Nat.add_comm 1 k] using this
    · rw [safe_getFrom]
      rw [h]
      simp only
      constructor
      · intro hc; exact absurd hc (by simp)
      · intro hall
        have := hall 0 (by omega)
        rw [Nat.add_zero] at this
        rw [h] at this
        exact absurd this (by simp)

theorem safe_getFrom_first_return {ρ : Type} (att : Nat → AttemptOutcome ρ)
    (b : ℚ) : ∀ j n i r, j < n → att (i + j) = .returns r →
      (∀ k, k < j → att (i + k) = .raises) →
      (safe_getFrom att b i n).result = some r := by
  intro j
  induction j with
  | zero =>
    intro n i r hn hret _
    rcases n with _ | m
    · omega
    · rw [safe_getFrom]
      rw [Nat.add_zero] at hret
      rw [hret]
  | succ j ih =>
    intro n i r hn hret hpre
    rcases n with _ | m
    · omega
    · have h0 : att i = .raises := by simpa using hpre 0 (by omega)
      rw [safe_getFrom]
      rw [h0]
      simp only
      apply ih m (i + 1) r (by omega)
      · simpa [Nat.add_assoc, Nat.add_comm 1 j] using hret
      · intro k hk
        simpa [Nat.add_assoc, Nat.add_comm 1 k] using hpre (k + 1) (by omega)

theorem safe_getFrom_sleeps {ρ : Type} (att : Nat → AttemptOutcome ρ)
    (b : ℚ) : ∀ n i, (safe_getFrom att b i n).sleeps =
      (List.range (raisedCount att i n)).map
        (fun k : ℕ => b * ((i : ℚ) + (k : ℚ) + 1)) := by
  intro n
  induction n with
  | zero => intro i; simp [safe_getFrom, raisedCount]
  | succ m ih =>
    intro i
    rcases h : att i with _ | r
    · rw [safe_getFrom, raisedCount]
      rw [h]
      simp only
      rw [ih (i + 1)]
      rw [List.range_succ_eq_map]
      simp only [List.map_cons, List.map_map]
      congr 1
      · push_cast; ring
      · apply List.map_congr_left
        intro k _
        simp only [Function.comp_apply]
        push_cast; ring
    · rw [safe_getFrom, raisedCount]
      rw [h]
      simp

/-- C1 (counterexample): when every attempt receives an HTTP 500 response,
safe_get with retries = 3 does not perform 3 attempts and does not return
None: requests.get returning any response (whatever its status) exits the
loop at once, so the 500 response is returned after exactly 1 attempt with
no sleeps. -/
theorem safe_get_http500_counterexample :
    (safe_get att500 3 1).result = some ⟨500, []⟩ ∧
    (safe_get att500 3 1).attempts = 1 ∧
    (safe_get att500 3 1).sleeps = [] ∧
    ¬ ((safe_get att500 3 1).attempts = 3 ∧ (safe_get att500 3 1).result = none) := by
  decide

/-- C1 (amended): if every attempt raises a connection/timeout error, a call
with retries = 3 performs exactly 3 attempts, sleeping after each of the
three failed attempts (backoff * 1 before attempt 2, backoff * 2 before
attempt 3, and a final backoff * 3 sleep after attempt 3), and then returns
None. -/
theorem safe_get_all_raise_three_attempts {ρ : Type}
    (att : Nat → AttemptOutcome ρ) (b : ℚ)
    (h : ∀ k, k < 3 → att k = .raises) :
    safe_get att 3 b = ⟨none, 3, [b * 1, b * 2, b * 3]⟩ := by
  have h0 := h 0 (by omega)
  have h1 := h 1 (by omega)
  have h2 := h 2 (by omega)
  norm_num [safe_get, safe_getFrom, h0, h1, h2]

/-- Witness for the amended C1 at the all-raising oracle with backoff 1. -/
theorem safe_get_all_raise_three_attempts_witness :
    (∀ k, k < 3 → attRaise k = .raises) ∧
    safe_get attRaise 3 1 = ⟨none, 3, [1 * 1, 1 * 2, 1 * 3]⟩ :=
  ⟨fun _ _ => rfl, safe_get_all_raise_three_attempts attRaise 1 (fun _ _ => rfl)⟩

/-- C2 (confirmed): safe_get returns the first response obtained from an
attempt regardless of its HTTP status code, and it returns None if and only
if every one of the retries attempts raises a connection/timeout error. -/
theorem safe_get_first_response_none_iff {ρ : Type}
    (att : Nat → AttemptOutcome ρ) (retries : Nat) (b : ℚ) :
    (∀ j r, j < retries → att j = .returns r →
      (∀ k, k < j → att k = .raises) →
      (safe_get att retries b).result = some r) ∧
    ((safe_get att retries b).result = none ↔
      ∀ k, k < retries → att k = .raises) := by
  constructor
  · intro j r hj hret hpre
    exact safe_getFrom_first_return att b j retries 0 r hj (by simpa using hret)
      (fun k hk => by simpa using hpre k hk)
  · simpa [safe_get] using safe_getFrom_result_none_iff att b retries 0

/-- Witness for C2: attempt 0 raises, attempt 1 returns an HTTP 503
response, and safe_get returns that 503 response. -/
theorem safe_get_first_response_none_iff_witness :
    1 < 3 ∧ attSecond 1 = .returns ⟨503, []⟩ ∧
    (∀ k, k < 1 → attSecond k = .raises) ∧
    (safe_get attSecond 3 1).result = some ⟨503, []⟩ :=
  ⟨by omega, by decide, by decide,
    (safe_get_first_response_none_iff attSecond 3 1).1 1 ⟨503, []⟩
      (by omega) (by decide) (by decide)⟩

/-- C9 (counterexample): with every attempt raising, retries = 3 and
backoff = 1, the trace holds 3 sleeps for 3 attempts; only 2 sleeps fit
between consecutive attempts, so a sleep (backoff * 3 seconds) occurs after
the final attempt, before None is returned. -/
theorem safe_get_sleep_after_final_counterexample :
    (safe_get attRaise 3 1).attempts = 3 ∧
    (safe_get attRaise 3 1).sleeps.length = 3 ∧
    ¬ ((safe_get attRaise 3 1).sleeps.length ≤
        (safe_get attRaise 3 1).attempts - 1) := by
  decide

/-- C9 (amended): the k-th sleep (0-based) of a safe_get call lasts
backoff * (k + 1) seconds and follows the (k + 1)-th attempt, which raised;
there is exactly one sleep per raising attempt.  Hence the sleep between
attempts k and k + 1 is backoff * k as claimed, but on the all-fail path the
final attempt is also followed by a sleep (of backoff * attempts) before the
None result is returned. -/
theorem safe_get_sleeps_eq {ρ : Type} (att : Nat → AttemptOutcome ρ)
    (retries : Nat) (b : ℚ) :
    (safe_get att retries b).sleeps =
      (List.range (raisedCount att 0 retries)).map
        (fun k : ℕ => b * ((k : ℚ) + 1)) := by
  simpa [safe_get] using safe_getFrom_sleeps att b retries 0

theorem resultsLoop_length {α : Type} [LinearOrderedField α]
    (routed : α × α → α × α → Option (α × α)) (hav : α × α → α × α → α)
    (fb : Bool) (origin : α × α) (locs : List (String × α × α)) :
    (resultsLoop routed hav fb origin locs).length = locs.length := by
  rw [resultsLoop, List.length_map]

theorem mem_resultsLoop {α : Type} [LinearOrderedField α]
    {routed : α × α → α × α → Option (α × α)} {hav : α × α → α × α → α}
    {fb : Bool} {origin : α × α} {locs : List (String × α × α)} {r : Leg α}
    (hr : r ∈ resultsLoop routed hav fb origin locs) :
    (∃ k m, r.km = some k ∧ r.minutes = some m ∧
      (r.kind = "route" ∨ r.kind = "fallback")) ∨
    (r.km = none ∧ r.minutes = none ∧ r.kind = "failed") := by
  rw [resultsLoop, List.mem_map] at hr
  obtain ⟨loc, _, hbody⟩ := hr
  subst hbody
  rcases hrt : routed origin loc.2 with _ | p
  · cases fb
    · right
      simp [hrt]
    · left
      exact ⟨hav origin loc.2, hav origin loc.2 * (11 / 10), by simp [hrt]⟩
  · left
    exact ⟨p.1, p.2, by simp [hrt]⟩

/-- C7 (confirmed): every leg produced by a compute invocation satisfies the
invariant: kind "failed" implies both km and minutes absent, and kind
"route" or "fallback" implies both present.  It holds for every entry of
the results list built by the loop, and hence for every entry of the
returned ranking. -/
theorem leg_source_value_invariant {α : Type} [LinearOrderedField α]
    (routed : α × α → α × α → Option (α × α)) (hav : α × α → α × α → α)
    (fb : Bool) (origin : α × α) (locs : List (String × α × α)) :
    (∀ r ∈ resultsLoop routed hav fb origin locs,
      (r.kind = "failed" → r.km = none ∧ r.minutes = none) ∧
      ((r.kind = "route" ∨ r.kind = "fallback") →
        r.km.isSome ∧ r.minutes.isSome)) ∧
    (∀ legs, compute routed hav fb origin locs = .ranking legs →
      ∀ r ∈ legs,
        (r.kind = "failed" → r.km = none ∧ r.minutes = none) ∧
        ((r.kind = "route" ∨ r.kind = "fallback") →
          r.km.isSome ∧ r.minutes.isSome)) := by
  have base : ∀ r ∈ resultsLoop routed hav fb origin locs,
      (r.kind = "failed" → r.km = none ∧ r.minutes = none) ∧
      ((r.kind = "route" ∨ r.kind = "fallback") →
        r.km.isSome ∧ r.minutes.isSome) := by
    intro r hr
    rcases mem_resultsLoop hr with ⟨k, m, hk, hm, hkind⟩ | ⟨hk, hm, hkind⟩
    · constructor
      · intro hfail
        rcases hkind with h | h <;> (rw [h] at hfail; exact absurd hfail (by decide))
      · intro _
        exact ⟨by simp [hk], by simp [hm]⟩
    · constructor
      · intro _
        exact ⟨hk, hm⟩
      · intro hor
        rcases hor with h | h <;> (rw [hkind] at h; exact absurd h (by decide))
  refine ⟨base, ?_⟩
  intro legs hcomp r hr
  by_cases hempty : (ok_results (resultsLoop routed hav fb origin locs)).isEmpty
  · simp [compute, hempty] at hcomp
  · simp [compute, hempty] at hcomp
    subst hcomp
    have hmem : r ∈ ok_results (resultsLoop routed hav fb origin locs) :=
      (List.mergeSort_perm _ _).mem_iff.mp hr
    rw [ok_results] at hmem
    exact base r (List.mem_of_mem_filter hmem)

/-- Witness for C7 at a concrete instance: the fallback leg for Vianen with
the all-failing routing mock and a 10 km distance mock. -/
theorem leg_source_value_invariant_witness :
    legV10 ∈ resultsLoop rtNone hav10 true (0, 0) LOCATIONS_LL ∧
    ((legV10.kind = "failed" → legV10.km = none ∧ legV10.minutes = none) ∧
      ((legV10.kind = "route" ∨ legV10.kind = "fallback") →
        legV10.km.isSome ∧ legV10.minutes.isSome)) := by
  have hmem : legV10 ∈ resultsLoop rtNone hav10 true (0, 0) LOCATIONS_LL := by
    rw [resultsLoop, List.mem_map]
    exact ⟨("Vianen – Hagenweg 3c", (51.9919, 5.0912)),
      by norm_num [LOCATIONS_LL], by norm_num [rtNone, hav10, legV10]⟩
  exact ⟨hmem,
    (leg_source_value_invariant rtNone hav10 true (0, 0) LOCATIONS_LL).1 legV10 hmem⟩

/-- C4 (confirmed): for a destination whose routing call fails, the fallback
path produces the leg (name, haversine km, km * 1.1 minutes, "fallback") and
the no-fallback path produces the leg (name, absent, absent, "failed"),
stated at the real-valued instantiation where the distance helper is the
actual haversine_km of the source. -/
theorem fallback_leg_values (routed : ℝ × ℝ → ℝ × ℝ → Option (ℝ × ℝ))
    (origin : ℝ × ℝ) (locs : List (String × ℝ × ℝ)) (i : Nat)
    (hi : i < locs.length)
    (hfail : routed origin (locs.get ⟨i, hi⟩).2 = none) :
    (resultsLoop routed havPair true origin locs).get
        ⟨i, by rw [resultsLoop_length]; exact hi⟩ =
      ⟨(locs.get ⟨i, hi⟩).1,
        some (haversine_km origin.1 origin.2
          (locs.get ⟨i, hi⟩).2.1 (locs.get ⟨i, hi⟩).2.2),
        some (haversine_km origin.1 origin.2
          (locs.get ⟨i, hi⟩).2.1 (locs.get ⟨i, hi⟩).2.2 * (11 / 10)),
        "fallback"⟩ ∧
    (resultsLoop routed havPair false origin locs).get
        ⟨i, by rw [resultsLoop_length]; exact hi⟩ =
      ⟨(locs.get ⟨i, hi⟩).1, none, none, "failed"⟩ := by
  rw [List.get_eq_getElem] at hfail
  refine ⟨?_, ?_⟩ <;>
    simp [resultsLoop, List.get_eq_getElem, List.getElem_map, hfail, havPair]

/-- Witness for C4: a single destination at (1, 2) from origin (0, 0) with
the all-failing real routing mock. -/
theorem fallback_leg_values_witness :
    rtNoneR (0, 0) (1, 2) = none ∧
    (resultsLoop rtNoneR havPair true (0, 0) [("A", (1, 2))]).get
        ⟨0, by simp [resultsLoop]⟩ =
      ⟨"A", some (haversine_km 0 0 1 2),
        some (haversine_km 0 0 1 2 * (11 / 10)), "fallback"⟩ :=
  ⟨rfl, (fallback_leg_values rtNoneR (0, 0) [("A", (1, 2))] 0 (by simp) rfl).1⟩

/-- Concrete evaluation of the spec's worked example: one routed leg
(20 km, 18 min) for Amersfoort, fallback legs 10 km and 50 km for Vianen
and Woerden, ranked [fallback 11, routed 18, fallback 55]. -/
theorem compute_worked_example :
    compute rtExample havExample true (0, 0) LOCATIONS_LL =
      .ranking [⟨"Vianen – Hagenweg 3c", some 10, some 11, "fallback"⟩,
        ⟨"Amersfoort – De Stuwdam 5", some 20, some 18, "route"⟩,
        ⟨"Woerden – Botnische Golf 24", some 50, some 55, "fallback"⟩] := by
  have h1 : resultsLoop rtExample havExample true (0, 0) LOCATIONS_LL =
      [⟨"Vianen – Hagenweg 3c", some 10, some 11, "fallback"⟩,
        ⟨"Amersfoort – De Stuwdam 5", some 20, some 18, "route"⟩,
        ⟨"Woerden – Botnische Golf 24", some 50, some 55, "fallback"⟩] := by
    rw [resultsLoop, LOCATIONS_LL]
    simp only [List.map_cons, List.map_nil]
    norm_num [rtExample, havExample]
  simp only [compute, h1]
  with_unfolding_all rfl

/-- Concrete evaluation of an all-tie run: every leg falls back with 10 km,
hence 11.0 minutes, and the ranking keeps the original destination order
(stable tie-break). -/
theorem compute_tie_example :
    compute rtNone hav10 true (0, 0) LOCATIONS_LL =
      .ranking [⟨"Vianen – Hagenweg 3c", some 10, some 11, "fallback"⟩,
        ⟨"Amersfoort – De Stuwdam 5", some 10, some 11, "fallback"⟩,
        ⟨"Woerden – Botnische Golf 24", some 10, some 11, "fallback"⟩] := by
  have h1 : resultsLoop rtNone hav10 true (0, 0) LOCATIONS_LL =
      [⟨"Vianen – Hagenweg 3c", some 10, some 11, "fallback"⟩,
        ⟨"Amersfoort – De Stuwdam 5", some 10, some 11, "fallback"⟩,
        ⟨"Woerden – Botnische Golf 24", some 10, some 11, "fallback"⟩] := by
    rw [resultsLoop, LOCATIONS_LL]
    simp only [List.map_cons, List.map_nil]
    norm_num [rtNone, hav10]
  simp only [compute, h1]
  with_unfolding_all rfl

/-- C3 (confirmed): whenever compute returns a ranking, failed legs are
excluded, the ranking is sorted ascending by minutes, and it is a
permutation of the filtered results; moreover the spec's worked example
(one routed 18.0-minute leg, fallback legs computing to 10 * 1.1 = 11.0 and
50 * 1.1 = 55.0 minutes) is returned exactly in the order
[fallback 11, routed 18, fallback 55], and an all-tie run (every leg 11.0
minutes) keeps the original destination order, evidencing the stable
tie-break. -/
theorem ranking_excludes_failed_sorted_stable :
    (∀ (routed : ℚ × ℚ → ℚ × ℚ → Option (ℚ × ℚ)) (hav : ℚ × ℚ → ℚ × ℚ → ℚ)
        (fb : Bool) (origin : ℚ × ℚ) (locs : List (String × ℚ × ℚ))
        (legs : List (Leg ℚ)),
      compute routed hav fb origin locs = .ranking legs →
        (∀ r ∈ legs, r.kind ≠ "failed") ∧
        legs.Pairwise (fun a b => minutesKey a ≤ minutesKey b) ∧
        legs.Perm (ok_results (resultsLoop routed hav fb origin locs))) ∧
    compute rtExample havExample true (0, 0) LOCATIONS_LL =
      .ranking [⟨"Vianen – Hagenweg 3c", some 10, some 11, "fallback"⟩,
        ⟨"Amersfoort – De Stuwdam 5", some 20, some 18, "route"⟩,
        ⟨"Woerden – Botnische Golf 24", some 50, some 55, "fallback"⟩] ∧
    compute rtNone hav10 true (0, 0) LOCATIONS_LL =
      .ranking [⟨"Vianen – Hagenweg 3c", some 10, some 11, "fallback"⟩,
        ⟨"Amersfoort – De Stuwdam 5", some 10, some 11, "fallback"⟩,
        ⟨"Woerden – Botnische Golf 24", some 10, some 11, "fallback"⟩] := by
  refine ⟨?_, compute_worked_example, compute_tie_example⟩
  intro routed hav fb origin locs legs hcomp
  by_cases hempty : (ok_results (resultsLoop routed hav fb origin locs)).isEmpty
  · simp [compute, hempty] at hcomp
  · simp [compute, hempty] at hcomp
    subst hcomp
    refine ⟨?_, ?_, ?_⟩
    · intro r hr
      rw [sortLegs] at hr
      have hmem := (List.mergeSort_perm
        (ok_results (resultsLoop routed hav fb origin locs)) _).mem_iff.mp hr
      rw [ok_results] at hmem
      have hsome : r.km.isSome = true := by
        simpa using List.of_mem_filter hmem
      rcases mem_resultsLoop (List.mem_of_mem_filter hmem) with
        ⟨k, m, hk, _, hkind⟩ | ⟨hk, _, _⟩
      · rcases hkind with h | h <;> simp [h]
      · rw [hk] at hsome
        simp at hsome
    · rw [sortLegs]
      refine (List.sorted_mergeSort ?_ ?_
        (ok_results (resultsLoop routed hav fb origin locs))).imp
        (fun h => of_decide_eq_true h)
      · intro a b c hab hbc
        rw [decide_eq_true_eq] at hab hbc ⊢
        exact le_trans hab hbc
      · intro a b
        simp only [Bool.or_eq_true, decide_eq_true_eq]
        exact le_total _ _
    · rw [sortLegs]
      exact List.mergeSort_perm _ _

/-- Witness for C3 at the worked example: the ranking is returned and
satisfies the exclusion, sortedness and permutation properties. -/
theorem ranking_excludes_failed_sorted_stable_witness :
    compute rtExample havExample true (0, 0) LOCATIONS_LL =
      .ranking [⟨"Vianen – Hagenweg 3c", some 10, some 11, "fallback"⟩,
        ⟨"Amersfoort – De Stuwdam 5", some 20, some 18, "route"⟩,
        ⟨"Woerden – Botnische Golf 24", some 50, some 55, "fallback"⟩] ∧
    ((∀ r ∈ [(⟨"Vianen – Hagenweg 3c", some 10, some 11, "fallback"⟩ : Leg ℚ),
        ⟨"Amersfoort – De Stuwdam 5", some 20, some 18, "route"⟩,
        ⟨"Woerden – Botnische Golf 24", some 50, some 55, "fallback"⟩],
        r.kind ≠ "failed") ∧
      List.Pairwise (fun a b => minutesKey a ≤ minutesKey b)
        [(⟨"Vianen – Hagenweg 3c", some 10, some 11, "fallback"⟩ : Leg ℚ),
          ⟨"Amersfoort – De Stuwdam 5", some 20, some 18, "route"⟩,
          ⟨"Woerden – Botnische Golf 24", some 50, some 55, "fallback"⟩] ∧
      List.Perm
        [(⟨"Vianen – Hagenweg 3c", some 10, some 11, "fallback"⟩ : Leg ℚ),
          ⟨"Amersfoort – De Stuwdam 5", some 20, some 18, "route"⟩,
          ⟨"Woerden – Botnische Golf 24", some 50, some 55, "fallback"⟩]
        (ok_results (resultsLoop rtExample havExample true (0, 0) LOCATIONS_LL))) :=
  ⟨compute_worked_example,
    ranking_excludes_failed_sorted_stable.1 rtExample havExample true (0, 0)
      LOCATIONS_LL _ compute_worked_example⟩

/-- C5 (confirmed): when no produced leg has a distance, compute surfaces
the all-routes-unavailable stop instead of an empty ranking; in particular
this happens when fallback is disabled and every routing call for the three
fixed destinations fails. -/
theorem all_failed_gives_unavailable :
    (∀ (routed : ℚ × ℚ → ℚ × ℚ → Option (ℚ × ℚ)) (hav : ℚ × ℚ → ℚ × ℚ → ℚ)
        (fb : Bool) (origin : ℚ × ℚ) (locs : List (String × ℚ × ℚ)),
      (∀ r ∈ resultsLoop routed hav fb origin locs, r.km = none) →
      compute routed hav fb origin locs = .allRoutesUnavailable) ∧
    (∀ (routed : ℚ × ℚ → ℚ × ℚ → Option (ℚ × ℚ)) (hav : ℚ × ℚ → ℚ × ℚ → ℚ)
        (origin : ℚ × ℚ),
      (∀ d ∈ LOCATIONS_LL, routed origin d.2 = none) →
      compute routed hav false origin LOCATIONS_LL = .allRoutesUnavailable) := by
  have base : ∀ (routed : ℚ × ℚ → ℚ × ℚ → Option (ℚ × ℚ))
      (hav : ℚ × ℚ → ℚ × ℚ → ℚ) (fb : Bool) (origin : ℚ × ℚ)
      (locs : List (String × ℚ × ℚ)),
      (∀ r ∈ resultsLoop routed hav fb origin locs, r.km = none) →
      compute routed hav fb origin locs = .allRoutesUnavailable := by
    intro routed hav fb origin locs hall
    have hnil : ok_results (resultsLoop routed hav fb origin locs) = [] := by
      rw [ok_results, List.filter_eq_nil_iff]
      intro r hr
      simp [hall r hr]
    simp [compute, hnil]
  refine ⟨base, ?_⟩
  intro routed hav origin hall
  apply base
  intro r hr
  rw [resultsLoop, List.mem_map] at hr
  obtain ⟨d, hd, rfl⟩ := hr
  simp [hall d hd]

/-- Witness for C5: the all-failing routing mock with fallback disabled on
the three fixed destinations. -/
theorem all_failed_gives_unavailable_witness :
    (∀ d ∈ LOCATIONS_LL, rtNone (0, 0) d.2 = none) ∧
    compute rtNone hav10 false (0, 0) LOCATIONS_LL = .allRoutesUnavailable :=
  ⟨fun _ _ => rfl,
    all_failed_gives_unavailable.2 rtNone hav10 (0, 0) (fun _ _ => rfl)⟩

/-- C6 (confirmed): geocode_city returns None both when every transport
attempt raises (retries exhausted) and when the service answers HTTP 200
with an empty result array; the two outcomes are equal, so the caller
cannot distinguish them. -/
theorem geocode_city_notfound_conflation
    (att attE : Nat → AttemptOutcome GeoResponse)
    (hraise : ∀ k, k < 3 → att k = .raises)
    (hempty : attE 0 = .returns ⟨200, []⟩) :
    geocode_city att = none ∧ geocode_city attE = none ∧
    geocode_city att = geocode_city attE := by
  have h1 : (safe_get att 3 (6 / 5)).result = none := by
    rw [safe_get, safe_getFrom_result_none_iff]
    intro k hk
    simpa using hraise k hk
  have h2 : (safe_get attE 3 (6 / 5)).result = some ⟨200, []⟩ := by
    rw [safe_get]
    exact safe_getFrom_first_return attE (6 / 5) 0 3 0 ⟨200, []⟩ (by omega)
      (by simpa using hempty) (fun k hk => absurd hk (by omega))
  refine ⟨?_, ?_, ?_⟩
  · rw [geocode_city, h1]
  · rw [geocode_city, h2]
    simp
  · rw [geocode_city, geocode_city, h1, h2]
    simp

/-- Witness for C6: the all-raising oracle and the empty-result oracle both
yield None. -/
theorem geocode_city_notfound_conflation_witness :
    (∀ k, k < 3 → attRaise k = .raises) ∧ attEmpty 0 = .returns ⟨200, []⟩ ∧
    geocode_city attRaise = none ∧ geocode_city attEmpty = none :=
  ⟨fun _ _ => rfl, rfl,
    (geocode_city_notfound_conflation attRaise attEmpty (fun _ _ => rfl) rfl).1,
    (geocode_city_notfound_conflation attRaise attEmpty (fun _ _ => rfl) rfl).2.1⟩

/-- C8 (confirmed): for coordinates in the valid latitude/longitude ranges,
haversine_km is symmetric in its two points and vanishes on a repeated
point.  Symmetry holds because negating the latitude and longitude
differences flips the sign under sin, which squaring cancels, and the
cosine product commutes; the self distance is 0 because both differences
vanish, making h = 0, sqrt h = 0 and arcsin 0 = 0. -/
theorem haversine_symm_and_self (lat1 lon1 lat2 lon2 : ℝ)
    (hlat1 : -90 ≤ lat1 ∧ lat1 ≤ 90) (hlon1 : -180 ≤ lon1 ∧ lon1 ≤ 180)
    (hlat2 : -90 ≤ lat2 ∧ lat2 ≤ 90) (hlon2 : -180 ≤ lon2 ∧ lon2 ≤ 180) :
    haversine_km lat1 lon1 lat2 lon2 = haversine_km lat2 lon2 lat1 lon1 ∧
    haversine_km lat1 lon1 lat1 lon1 = 0 := by
  constructor
  · simp only [haversine_km, radians]
    rw [show lat1 - lat2 = -(lat2 - lat1) by ring,
      show lon1 - lon2 = -(lon2 - lon1) by ring]
    rw [neg_mul, neg_mul, neg_div, neg_div, Real.sin_neg, Real.sin_neg,
      neg_sq, neg_sq]
    rw [mul_comm (Real.cos (lat2 * (Real.pi / 180)))
      (Real.cos (lat1 * (Real.pi / 180)))]
  · simp [haversine_km, radians, sub_self]

/-- Witness for C8 at the concrete points (0, 0) and (45, 90). -/
theorem haversine_symm_and_self_witness :
    ((-90 : ℝ) ≤ 0 ∧ (0 : ℝ) ≤ 90) ∧ ((-180 : ℝ) ≤ 0 ∧ (0 : ℝ) ≤ 180) ∧
    ((-90 : ℝ) ≤ 45 ∧ (45 : ℝ) ≤ 90) ∧ ((-180 : ℝ) ≤ 90 ∧ (90 : ℝ) ≤ 180) ∧
    (haversine_km 0 0 45 90 = haversine_km 45 90 0 0 ∧
      haversine_km 0 0 0 0 = 0) :=
  ⟨by norm_num, by norm_num, by norm_num, by norm_num,
    haversine_symm_and_self 0 0 45 90 (by norm_num) (by norm_num)
      (by norm_num) (by norm_num)⟩

/-- C10 (confirmed): in coordinate input mode, any pair of strings that
parse as Python floats (after strip and the comma-to-dot replacement) is
accepted and cand_ll is exactly the parsed pair — the value passed on as
the routing origin; no range or finiteness check is performed.  In
particular out-of-range values such as 1000 and 91.5 written with a decimal
comma, and non-finite values such as nan and inf, are accepted. -/
theorem coord_input_no_range_check :
    (∀ lat_str lon_str a b, parse_coord lat_str = some a →
      parse_coord lon_str = some b →
      coord_input lat_str lon_str = some (a, b)) ∧
    coord_input "1000" "nan" = some (.finite 1000, .nan) ∧
    coord_input " 91,5 " "inf" = some (.finite (183 / 2), .inf) ∧
    coord_input "-200.25" "1e10" =
      some (.finite (-801 / 4), .finite 10000000000) := by
  refine ⟨?_, ?_, ?_, ?_⟩
  · intro lat_str lon_str a b ha hb
    rw [coord_input, ha, hb]
  · with_unfolding_all rfl
  · with_unfolding_all rfl
  · with_unfolding_all rfl

/-- Witness for C10: the out-of-range latitude 1000 and the non-finite
longitude nan are both accepted and passed through. -/
theorem coord_input_no_range_check_witness :
    parse_coord "1000" = some (.finite 1000) ∧
    parse_coord "nan" = some .nan ∧
    coord_input "1000" "nan" = some (.finite 1000, .nan) :=
  ⟨by with_unfolding_all rfl, by with_unfolding_all rfl,
    coord_input_no_range_check.1 "1000" "nan" (.finite 1000) .nan
      (by with_unfolding_all rfl) (by with_unfolding_all rfl)⟩

end Afstand
